import Mathlib

/-!
Verification of the per-packet encryption core of `gstdiscordcrypto.c`
(GStreamer element `discordcrypto`, which encrypts Opus-over-RTP packets
for Discord voice).

Shallow embedding conventions:
* Byte buffers are `List Nat` (each element intended < 256).
* `guint32` arithmetic is `Nat` with the wrap the C code performs spelled
  out explicitly (the code compares against `4294967295`).
* The libsodium primitive `crypto_secretbox_easy` is an external library
  call; it is passed in as a function parameter `secretbox : key → nonce →
  plaintext → ciphertext`.  The only fact the element relies on is that
  its output length is plaintext length + 16, which theorems take as a
  hypothesis where needed.
* `randombytes_buf` output (SUFFIX mode) is passed in as the parameter
  `randomBytes` (24 bytes of external randomness per packet).
* `gst_buffer_map` failure (the `!inmap.data || !outmap.data` check) is
  modelled by the boolean parameter `mapOk`; mapped input data is
  read-only (`GST_MAP_READ`), so the input list is passed by value and is
  never modified.
* The freshly allocated output buffer (`gst_buffer_new_allocate`) is
  modelled as `List.replicate outsize 0`; all bytes the theorems speak
  about are overwritten by the `memcpy`/`crypto_secretbox_easy` writes,
  so the fill value is irrelevant to them.
-/

/-- Constant `RTP_HEADER_SIZE` from the source. -/
def RTP_HEADER_SIZE : Nat := 12

/-- libsodium constant: Poly1305 MAC length. -/
def crypto_secretbox_MACBYTES : Nat := 16

/-- libsodium constant: XSalsa20 nonce length. -/
def crypto_secretbox_NONCEBYTES : Nat := 24

/-- The `GstDiscordcryptoPattern` enum (`encryption` property values),
registered in `gst_discord_crypto_pattern_get_type`. -/
inductive GstDiscordcryptoPattern where
  | xsalsa20_poly1305
  | xsalsa20_poly1305_suffix
  | xsalsa20_poly1305_lite
deriving DecidableEq, Repr

/-- The element instance state (`GstDiscordcrypto` struct): the fields the
encryption core reads and writes.  `key` holds 32 bytes once set;
`lite_nonce` is the LITE-mode `guint32` counter; `outsize` is the cached
output size computed by `prepare_output_buffer`.  Pads and debug fields
are framework plumbing and carry no encryption state. -/
structure GstDiscordcrypto where
  encryption : GstDiscordcryptoPattern
  key : List Nat
  lite_nonce : Nat
  outsize : Nat
deriving DecidableEq, Repr

/-- Models `gst_discord_crypto_init`: the instance struct is zero-initialized by
GObject, then `filter->lite_nonce = 0` is (re)assigned explicitly.  So the
key starts as 32 zero bytes and the counter as 0.  The numeric values of
the enum constants live in `gstdiscordcrypto.h`; the zero value is the
first registered constant in the usual layout, but no theorem below
depends on the initial `encryption` value (set it explicitly via the
property where it matters). -/
def gst_discord_crypto_init : GstDiscordcrypto :=
  { encryption := .xsalsa20_poly1305
    key := List.replicate 32 0
    lite_nonce := 0
    outsize := 0 }

/-- Models `gst_discord_crypto_set_property`, `PROP_ENCRYPTION` case: stores the
enum value, touches nothing else. -/
def gst_discord_crypto_set_property_encryption (filter : GstDiscordcrypto)
    (e : GstDiscordcryptoPattern) : GstDiscordcrypto :=
  { filter with encryption := e }

/-- Models `gst_discord_crypto_set_property`, `PROP_KEY` case: if the supplied
array has fewer than 32 values, `GST_ELEMENT_ERROR` is posted and the
function returns with the state unchanged (`none` here); otherwise the
loop `for i in 0..32` copies exactly the first 32 values into
`filter->key`, with no other field modified. -/
def gst_discord_crypto_set_property_key (filter : GstDiscordcrypto)
    (value : List Nat) : Option GstDiscordcrypto :=
  if value.length < 32 then none
  else some { filter with key := value.take 32 }

/-- Models `gst_discord_crypto_prepare_output_buffer`: computes
`filter->outsize` from the input buffer size and the mode, then allocates
the output buffer of that size.  The timestamps it copies are metadata
and are not modelled. -/
def gst_discord_crypto_prepare_output_buffer (filter : GstDiscordcrypto)
    (in_size : Nat) : GstDiscordcrypto :=
  match filter.encryption with
  | .xsalsa20_poly1305 =>
      { filter with outsize := in_size + crypto_secretbox_MACBYTES }
  | .xsalsa20_poly1305_suffix =>
      { filter with outsize :=
          in_size + crypto_secretbox_MACBYTES + crypto_secretbox_NONCEBYTES }
  | .xsalsa20_poly1305_lite =>
      { filter with outsize := in_size + crypto_secretbox_MACBYTES + 4 }

/-- Models `memcpy(dst + off, src, src.length)` on a byte buffer. -/
def memcpyAt (dst : List Nat) (off : Nat) (src : List Nat) : List Nat :=
  dst.take off ++ src ++ dst.drop (off + src.length)

/-- The four bytes `g_htonl` stores at `nonce[0..4]`: the big-endian
(network byte order) representation of the low 32 bits of `n`. -/
def htonlBytes (n : Nat) : List Nat :=
  [n / 16777216 % 256, n / 65536 % 256, n / 256 % 256, n % 256]

/-- Models `gst_discord_crypto_transform`: the per-packet encryption.  After the
buffer-map check it copies the 12-byte RTP header, builds the 24-byte
nonce per mode from the zero-initialized `nonce[24]` array, calls
`crypto_secretbox_easy` writing at offset 12, and appends the
mode-specific trailer at `outsize - 24` (SUFFIX) or `outsize - 4` (LITE).
In LITE mode the counter is advanced (with an explicit wrap at
`4294967295`) after the nonce bytes are written, so both the nonce and
the trailer carry the pre-increment value. -/
def gst_discord_crypto_transform
    (secretbox : List Nat → List Nat → List Nat → List Nat)
    (filter : GstDiscordcrypto) (inmap : List Nat) (randomBytes : List Nat)
    (mapOk : Bool) : Option (List Nat) × GstDiscordcrypto :=
  if mapOk then
    let outmap0 := List.replicate filter.outsize 0
    let outmap1 := memcpyAt outmap0 0 (inmap.take RTP_HEADER_SIZE)
    let in_data := inmap.drop RTP_HEADER_SIZE
    match filter.encryption with
    | .xsalsa20_poly1305 =>
        let nonce := inmap.take RTP_HEADER_SIZE ++ List.replicate 12 0
        (some (memcpyAt outmap1 RTP_HEADER_SIZE
                 (secretbox filter.key nonce in_data)), filter)
    | .xsalsa20_poly1305_suffix =>
        let nonce := randomBytes
        let outmap2 := memcpyAt outmap1 RTP_HEADER_SIZE
                         (secretbox filter.key nonce in_data)
        (some (memcpyAt outmap2 (filter.outsize - 24) nonce), filter)
    | .xsalsa20_poly1305_lite =>
        let nonce := htonlBytes filter.lite_nonce ++ List.replicate 20 0
        let filter2 := { filter with
          lite_nonce :=
            if filter.lite_nonce < 4294967295 then filter.lite_nonce + 1
            else 0 }
        let outmap2 := memcpyAt outmap1 RTP_HEADER_SIZE
                         (secretbox filter.key nonce in_data)
        (some (memcpyAt outmap2 (filter.outsize - 4)
                 (htonlBytes filter.lite_nonce)), filter2)
  else (none, filter)

/-- One buffer through the element as the base class drives it:
`prepare_output_buffer` (which sets `outsize` and allocates), then
`transform`. -/
def encrypt_packet (secretbox : List Nat → List Nat → List Nat → List Nat)
    (filter : GstDiscordcrypto) (inmap : List Nat) (randomBytes : List Nat)
    (mapOk : Bool) : Option (List Nat) × GstDiscordcrypto :=
  gst_discord_crypto_transform secretbox
    (gst_discord_crypto_prepare_output_buffer filter inmap.length)
    inmap randomBytes mapOk

/-- Big-endian integer value of a byte string (used to state the
counter-trailer claims). -/
def beVal (l : List Nat) : Nat :=
  l.foldl (fun acc b => acc * 256 + b) 0

/-- Number of trailer bytes each mode appends after the secretbox body:
0 (STANDARD), the 24 nonce bytes (SUFFIX), the 4 counter bytes (LITE).
Spelled out to state the length claim mode-by-mode. -/
def trailer_len : GstDiscordcryptoPattern → Nat
  | .xsalsa20_poly1305 => 0
  | .xsalsa20_poly1305_suffix => 24
  | .xsalsa20_poly1305_lite => 4

/-- A concrete stand-in for `crypto_secretbox_easy` used only to witness
theorems at concrete inputs: 16 header bytes derived from key and nonce,
then the plaintext.  It satisfies the secretbox length contract. -/
def sbTest (k n pt : List Nat) : List Nat :=
  (k ++ n ++ List.replicate 16 0).take 16 ++ pt

/-- Concrete RTP header for witnesses (the spec scenario header
`80 78 00 01 00 00 00 00 00 00 00 2A`). -/
def wHeader : List Nat := [128, 120, 0, 1, 0, 0, 0, 0, 0, 0, 0, 42]

/-- Concrete Opus payload for witnesses (`DE AD BE EF`). -/
def wPayload : List Nat := [222, 173, 190, 239]

/-- Concrete input packet for witnesses: header then payload. -/
def wIn : List Nat := wHeader ++ wPayload

/-- Concrete 32-byte key for witnesses. -/
def wKey : List Nat := List.replicate 32 1

/-! ### Helper lemmas about the embedding -/

lemma prepare_encryption (f : GstDiscordcrypto) (n : Nat) :
    (gst_discord_crypto_prepare_output_buffer f n).encryption = f.encryption := by
  cases h : f.encryption <;>
    simp [gst_discord_crypto_prepare_output_buffer, h]

lemma prepare_key (f : GstDiscordcrypto) (n : Nat) :
    (gst_discord_crypto_prepare_output_buffer f n).key = f.key := by
  cases h : f.encryption <;>
    simp [gst_discord_crypto_prepare_output_buffer, h]

lemma prepare_lite_nonce (f : GstDiscordcrypto) (n : Nat) :
    (gst_discord_crypto_prepare_output_buffer f n).lite_nonce = f.lite_nonce := by
  cases h : f.encryption <;>
    simp [gst_discord_crypto_prepare_output_buffer, h]

lemma prepare_outsize_standard (f : GstDiscordcrypto) (n : Nat)
    (h : f.encryption = .xsalsa20_poly1305) :
    (gst_discord_crypto_prepare_output_buffer f n).outsize = n + 16 := by
  simp [gst_discord_crypto_prepare_output_buffer, h, crypto_secretbox_MACBYTES]

lemma prepare_outsize_suffix (f : GstDiscordcrypto) (n : Nat)
    (h : f.encryption = .xsalsa20_poly1305_suffix) :
    (gst_discord_crypto_prepare_output_buffer f n).outsize = n + 40 := by
  simp [gst_discord_crypto_prepare_output_buffer, h, crypto_secretbox_MACBYTES,
    crypto_secretbox_NONCEBYTES]

lemma prepare_outsize_lite (f : GstDiscordcrypto) (n : Nat)
    (h : f.encryption = .xsalsa20_poly1305_lite) :
    (gst_discord_crypto_prepare_output_buffer f n).outsize = n + 20 := by
  simp [gst_discord_crypto_prepare_output_buffer, h, crypto_secretbox_MACBYTES]

lemma memcpyAt_zero (l src : List Nat) :
    memcpyAt l 0 src = src ++ l.drop src.length := by
  simp [memcpyAt]

lemma memcpyAt_split (l1 l2 src : List Nat) (off : Nat) (h : l1.length = off) :
    memcpyAt (l1 ++ l2) off src = l1 ++ src ++ l2.drop src.length := by
  unfold memcpyAt
  rw [List.take_left' h, ← List.drop_drop, List.drop_left' h]

lemma take_header (inmap : List Nat) (h12 : 12 ≤ inmap.length) :
    (inmap.take 12).length = 12 := by
  simp [List.length_take]; omega

/-! ### Per-mode closed forms of `encrypt_packet` -/

/-- STANDARD mode closed form: header, then the secretbox output under
nonce = header ‖ 12 zero bytes; no trailer; state unchanged apart from
`outsize`. -/
lemma encrypt_packet_standard_eq
    (sb : List Nat → List Nat → List Nat → List Nat)
    (f : GstDiscordcrypto) (inmap randomBytes : List Nat)
    (hmode : f.encryption = .xsalsa20_poly1305)
    (hsb : ∀ k nn pt, (sb k nn pt).length = pt.length + 16)
    (h12 : 12 ≤ inmap.length) :
    encrypt_packet sb f inmap randomBytes true =
      (some (inmap.take 12 ++
         sb f.key (inmap.take 12 ++ List.replicate 12 0) (inmap.drop 12)),
       gst_discord_crypto_prepare_output_buffer f inmap.length) := by
  have hhdr := take_header inmap h12
  have hct : (sb f.key (inmap.take 12 ++ List.replicate 12 0)
      (inmap.drop 12)).length = inmap.length - 12 + 16 := by
    rw [hsb]; simp
  simp only [encrypt_packet, gst_discord_crypto_transform, RTP_HEADER_SIZE,
    prepare_encryption, hmode, prepare_key,
    prepare_outsize_standard f inmap.length hmode, if_true]
  rw [memcpyAt_zero, List.drop_replicate, hhdr,
    memcpyAt_split _ _ _ _ hhdr, List.drop_replicate, hct]
  have : inmap.length + 16 - 12 - (inmap.length - 12 + 16) = 0 := by omega
  rw [this]
  simp

lemma memcpyAt_at_end (pre tail src : List Nat) (h : tail.length = src.length) :
    memcpyAt (pre ++ tail) pre.length src = pre ++ src := by
  rw [memcpyAt_split pre tail src pre.length rfl, ← h, List.drop_length,
    List.append_nil]

lemma htonlBytes_length (n : Nat) : (htonlBytes n).length = 4 := by
  simp [htonlBytes]

/-- SUFFIX mode closed form: header, secretbox output under the 24 random
bytes as nonce, then those 24 nonce bytes as trailer; state unchanged
apart from `outsize`. -/
lemma encrypt_packet_suffix_eq
    (sb : List Nat → List Nat → List Nat → List Nat)
    (f : GstDiscordcrypto) (inmap randomBytes : List Nat)
    (hmode : f.encryption = .xsalsa20_poly1305_suffix)
    (hsb : ∀ k nn pt, (sb k nn pt).length = pt.length + 16)
    (h12 : 12 ≤ inmap.length)
    (hrand : randomBytes.length = 24) :
    encrypt_packet sb f inmap randomBytes true =
      (some (inmap.take 12 ++ sb f.key randomBytes (inmap.drop 12) ++
         randomBytes),
       gst_discord_crypto_prepare_output_buffer f inmap.length) := by
  have hhdr := take_header inmap h12
  have hct : (sb f.key randomBytes (inmap.drop 12)).length
      = inmap.length - 12 + 16 := by
    rw [hsb]; simp
  simp only [encrypt_packet, gst_discord_crypto_transform, RTP_HEADER_SIZE,
    prepare_encryption, hmode, prepare_key,
    prepare_outsize_suffix f inmap.length hmode, if_true]
  rw [memcpyAt_zero, List.drop_replicate, hhdr,
    memcpyAt_split _ _ _ _ hhdr, List.drop_replicate, hct]
  have h24 : inmap.length + 40 - 12 - (inmap.length - 12 + 16) = 24 := by
    omega
  rw [h24]
  have hoff : inmap.length + 40 - 24 =
      (inmap.take 12 ++ sb f.key randomBytes (inmap.drop 12)).length := by
    simp [hhdr, hct]; omega
  rw [hoff, memcpyAt_at_end _ _ _ (by simp [hrand])]

/-- LITE mode closed form: header, secretbox output under nonce =
big-endian counter ‖ 20 zero bytes, then the 4 counter bytes as trailer;
the counter is advanced with its wrap at `4294967295`. -/
lemma encrypt_packet_lite_eq
    (sb : List Nat → List Nat → List Nat → List Nat)
    (f : GstDiscordcrypto) (inmap randomBytes : List Nat)
    (hmode : f.encryption = .xsalsa20_poly1305_lite)
    (hsb : ∀ k nn pt, (sb k nn pt).length = pt.length + 16)
    (h12 : 12 ≤ inmap.length) :
    encrypt_packet sb f inmap randomBytes true =
      (some (inmap.take 12 ++
         sb f.key (htonlBytes f.lite_nonce ++ List.replicate 20 0)
           (inmap.drop 12) ++
         htonlBytes f.lite_nonce),
       { gst_discord_crypto_prepare_output_buffer f inmap.length with
           lite_nonce :=
             if f.lite_nonce < 4294967295 then f.lite_nonce + 1 else 0 }) := by
  have hhdr := take_header inmap h12
  have hct : (sb f.key (htonlBytes f.lite_nonce ++ List.replicate 20 0)
      (inmap.drop 12)).length = inmap.length - 12 + 16 := by
    rw [hsb]; simp
  simp only [encrypt_packet, gst_discord_crypto_transform, RTP_HEADER_SIZE,
    prepare_encryption, hmode, prepare_key, prepare_lite_nonce,
    prepare_outsize_lite f inmap.length hmode, if_true]
  rw [memcpyAt_zero, List.drop_replicate, hhdr,
    memcpyAt_split _ _ _ _ hhdr, List.drop_replicate, hct]
  have h4 : inmap.length + 20 - 12 - (inmap.length - 12 + 16) = 4 := by
    omega
  rw [h4]
  have hoff : inmap.length + 20 - 4 =
      (inmap.take 12 ++
        sb f.key (htonlBytes f.lite_nonce ++ List.replicate 20 0)
          (inmap.drop 12)).length := by
    rw [List.length_append, hhdr, hct]; omega
  rw [hoff, memcpyAt_at_end _ _ _ (by simp [htonlBytes_length])]

lemma sbTest_length (k nn pt : List Nat) :
    (sbTest k nn pt).length = pt.length + 16 := by
  simp [sbTest, List.length_take]
  omega

lemma drop_tail (pre tr : List Nat) (k : Nat) (h : tr.length = k) :
    (pre ++ tr).drop ((pre ++ tr).length - k) = tr := by
  have hl : (pre ++ tr).length - k = pre.length := by
    rw [List.length_append, h]; omega
  rw [hl, List.drop_left]

lemma beVal_htonlBytes (n : Nat) (h : n < 4294967296) :
    beVal (htonlBytes n) = n := by
  simp [beVal, htonlBytes, List.foldl]
  omega

lemma lite_step (c : Nat) (h : c < 4294967296) :
    (if c < 4294967295 then c + 1 else 0) = (c + 1) % 4294967296 := by
  split <;> omega

lemma encrypt_packet_fail
    (sb : List Nat → List Nat → List Nat → List Nat)
    (f : GstDiscordcrypto) (inmap randomBytes : List Nat) :
    encrypt_packet sb f inmap randomBytes false =
      (none, gst_discord_crypto_prepare_output_buffer f inmap.length) := by
  simp [encrypt_packet, gst_discord_crypto_transform]

/-! ### Claim theorems -/

/-- Claim C9: in STANDARD mode `encrypt_packet` is deterministic — two
calls on sessions holding the same stored key, with the same input packet
bytes, produce byte-for-byte identical output packets, regardless of the
per-call randomness (which STANDARD mode never consumes). -/
theorem standard_mode_deterministic
    (sb : List Nat → List Nat → List Nat → List Nat)
    (f g : GstDiscordcrypto) (inmap r1 r2 : List Nat)
    (hf : f.encryption = .xsalsa20_poly1305)
    (hg : g.encryption = .xsalsa20_poly1305)
    (hkey : f.key = g.key) :
    (encrypt_packet sb f inmap r1 true).1 =
      (encrypt_packet sb g inmap r2 true).1 := by
  simp only [encrypt_packet, gst_discord_crypto_transform,
    prepare_encryption, hf, hg, prepare_key,
    prepare_outsize_standard f inmap.length hf,
    prepare_outsize_standard g inmap.length hg, hkey, if_true]

/-- Witness for C9 at a concrete key, input and two different random
strings. -/
theorem standard_mode_deterministic_witness :
    ({ encryption := .xsalsa20_poly1305, key := List.replicate 32 1,
       lite_nonce := 0, outsize := 0 } : GstDiscordcrypto).encryption =
      .xsalsa20_poly1305 ∧
    (encrypt_packet sbTest
        { encryption := .xsalsa20_poly1305, key := List.replicate 32 1,
          lite_nonce := 0, outsize := 0 }
        (List.replicate 12 3 ++ [222, 173, 190, 239])
        (List.replicate 24 5) true).1 =
      (encrypt_packet sbTest
        { encryption := .xsalsa20_poly1305, key := List.replicate 32 1,
          lite_nonce := 9, outsize := 77 }
        (List.replicate 12 3 ++ [222, 173, 190, 239])
        (List.replicate 24 6) true).1 :=
  ⟨by decide,
   standard_mode_deterministic sbTest
     { encryption := .xsalsa20_poly1305, key := List.replicate 32 1,
       lite_nonce := 0, outsize := 0 }
     { encryption := .xsalsa20_poly1305, key := List.replicate 32 1,
       lite_nonce := 9, outsize := 77 }
     (List.replicate 12 3 ++ [222, 173, 190, 239])
     (List.replicate 24 5) (List.replicate 24 6) rfl rfl rfl⟩

/-- Claim C10: a failing `encrypt_packet` call (the buffer-map check at
the top of `transform` fails) produces no output and leaves the key, the
mode and the LITE counter exactly as they were; consequently the next
successful LITE packet carries the counter value (as its big-endian
trailer) that the failed packet would have used. -/
theorem failure_leaves_state_unchanged
    (sb : List Nat → List Nat → List Nat → List Nat)
    (f : GstDiscordcrypto) (inmap randomBytes : List Nat) :
    (encrypt_packet sb f inmap randomBytes false).1 = none ∧
    (encrypt_packet sb f inmap randomBytes false).2.key = f.key ∧
    (encrypt_packet sb f inmap randomBytes false).2.encryption =
      f.encryption ∧
    (encrypt_packet sb f inmap randomBytes false).2.lite_nonce =
      f.lite_nonce ∧
    (∀ sb2 in2 r2 out2,
      (∀ k nn pt, (sb2 k nn pt).length = pt.length + 16) →
      12 ≤ in2.length →
      f.encryption = .xsalsa20_poly1305_lite →
      (encrypt_packet sb2 (encrypt_packet sb f inmap randomBytes false).2
          in2 r2 true).1 = some out2 →
      out2.drop (out2.length - 4) = htonlBytes f.lite_nonce) := by
  rw [encrypt_packet_fail]
  refine ⟨rfl, prepare_key f inmap.length, prepare_encryption f inmap.length,
    prepare_lite_nonce f inmap.length, ?_⟩
  intro sb2 in2 r2 out2 hsb2 h12 hmode hout
  have hmode2 : (gst_discord_crypto_prepare_output_buffer f
      inmap.length).encryption = .xsalsa20_poly1305_lite := by
    rw [prepare_encryption, hmode]
  rw [encrypt_packet_lite_eq sb2 _ in2 r2 hmode2 hsb2 h12] at hout
  simp only [Option.some.injEq] at hout
  rw [← hout, prepare_lite_nonce, prepare_key]
  exact drop_tail _ _ 4 (htonlBytes_length f.lite_nonce)

/-- Witness for C10 at a concrete LITE session with counter 7: the failed
call changes nothing and the trailer of the following successful packet is the
big-endian 7 the failed packet would have carried. -/
theorem failure_leaves_state_unchanged_witness :
    (encrypt_packet sbTest
        { encryption := .xsalsa20_poly1305_lite, key := List.replicate 32 4,
          lite_nonce := 7, outsize := 0 }
        (List.replicate 12 1 ++ [9, 9]) [] false).1 = none ∧
    (encrypt_packet sbTest
        { encryption := .xsalsa20_poly1305_lite, key := List.replicate 32 4,
          lite_nonce := 7, outsize := 0 }
        (List.replicate 12 1 ++ [9, 9]) [] false).2.lite_nonce = 7 ∧
    (encrypt_packet sbTest
        (encrypt_packet sbTest
          { encryption := .xsalsa20_poly1305_lite,
            key := List.replicate 32 4, lite_nonce := 7, outsize := 0 }
          (List.replicate 12 1 ++ [9, 9]) [] false).2
        (List.replicate 12 1 ++ [9, 9]) [] true).1 =
      some (List.replicate 12 1 ++ List.replicate 16 4 ++
        [9, 9, 0, 0, 0, 7]) ∧
    (List.replicate 12 1 ++ List.replicate 16 4 ++
      [9, 9, 0, 0, 0, 7] : List Nat).drop
      ((List.replicate 12 1 ++ List.replicate 16 4 ++
        [9, 9, 0, 0, 0, 7] : List Nat).length - 4) = htonlBytes 7 :=
  ⟨(failure_leaves_state_unchanged sbTest _ _ []).1,
   (failure_leaves_state_unchanged sbTest
     { encryption := .xsalsa20_poly1305_lite, key := List.replicate 32 4,
       lite_nonce := 7, outsize := 0 }
     (List.replicate 12 1 ++ [9, 9]) []).2.2.2.1,
   by decide,
   (failure_leaves_state_unchanged sbTest
     { encryption := .xsalsa20_poly1305_lite, key := List.replicate 32 4,
       lite_nonce := 7, outsize := 0 }
     (List.replicate 12 1 ++ [9, 9]) []).2.2.2.2
     sbTest (List.replicate 12 1 ++ [9, 9]) []
     (List.replicate 12 1 ++ List.replicate 16 4 ++ [9, 9, 0, 0, 0, 7])
     sbTest_length (by decide) rfl (by decide)⟩

/-- Claim C5: the output buffer is allocated at `outsize`, which is
`input_length + 16` (STANDARD), `input_length + 16 + 24` (SUFFIX) or
`input_length + 16 + 4` (LITE), and the output of a successful encryption
packet has exactly that length. -/
theorem output_buffer_length
    (sb : List Nat → List Nat → List Nat → List Nat)
    (f : GstDiscordcrypto) (inmap randomBytes out : List Nat)
    (hsb : ∀ k nn pt, (sb k nn pt).length = pt.length + 16)
    (h12 : 12 ≤ inmap.length)
    (hrand : randomBytes.length = 24)
    (hout : (encrypt_packet sb f inmap randomBytes true).1 = some out) :
    (gst_discord_crypto_prepare_output_buffer f inmap.length).outsize =
      inmap.length + 16 + trailer_len f.encryption ∧
    out.length = inmap.length + 16 + trailer_len f.encryption := by
  have hhdr := take_header inmap h12
  cases hmode : f.encryption
  case xsalsa20_poly1305 =>
    rw [encrypt_packet_standard_eq sb f inmap randomBytes hmode hsb h12]
      at hout
    simp only [Option.some.injEq] at hout
    refine ⟨by rw [prepare_outsize_standard f _ hmode]; simp [trailer_len], ?_⟩
    rw [← hout]
    simp only [List.length_append, List.length_drop, hhdr, hsb, trailer_len]
    omega
  case xsalsa20_poly1305_suffix =>
    rw [encrypt_packet_suffix_eq sb f inmap randomBytes hmode hsb h12 hrand]
      at hout
    simp only [Option.some.injEq] at hout
    refine ⟨by rw [prepare_outsize_suffix f _ hmode]; simp [trailer_len], ?_⟩
    rw [← hout]
    simp only [List.length_append, List.length_drop, hhdr, hsb, hrand, trailer_len]
    omega
  case xsalsa20_poly1305_lite =>
    rw [encrypt_packet_lite_eq sb f inmap randomBytes hmode hsb h12] at hout
    simp only [Option.some.injEq] at hout
    refine ⟨by rw [prepare_outsize_lite f _ hmode]; simp [trailer_len], ?_⟩
    rw [← hout]
    simp only [List.length_append, List.length_drop, hhdr, hsb,
      htonlBytes_length, trailer_len]
    omega

/-- Witness for C5: a 15-byte SUFFIX-mode packet yields a 55-byte output
(15 + 16 + 24). -/
theorem output_buffer_length_witness :
    (12 : Nat) ≤ 15 ∧
    (List.replicate 24 3 : List Nat).length = 24 ∧
    (encrypt_packet sbTest
        { encryption := .xsalsa20_poly1305_suffix,
          key := List.replicate 32 1, lite_nonce := 0, outsize := 0 }
        (List.replicate 12 2 ++ [7, 7, 7]) (List.replicate 24 3) true).1 =
      some (List.replicate 12 2 ++ List.replicate 16 1 ++ [7, 7, 7] ++
        List.replicate 24 3) ∧
    (List.replicate 12 2 ++ List.replicate 16 1 ++ [7, 7, 7] ++
      List.replicate 24 3 : List Nat).length = 15 + 16 + 24 :=
  ⟨by decide, by decide, by decide,
   by
     have h := (output_buffer_length sbTest
       { encryption := .xsalsa20_poly1305_suffix,
         key := List.replicate 32 1, lite_nonce := 0, outsize := 0 }
       (List.replicate 12 2 ++ [7, 7, 7]) (List.replicate 24 3)
       (List.replicate 12 2 ++ List.replicate 16 1 ++ [7, 7, 7] ++
         List.replicate 24 3)
       sbTest_length (by decide) (by decide) (by decide)).2
     exact h.trans (by decide)⟩

/-- Claim C6: a successful `encrypt_packet` on an input of length at
least 12 copies the first 12 bytes of the input verbatim into the first
12 bytes of the output, in every mode.  (The input itself is mapped `GST_MAP_READ`
and is embedded as an immutable value, so it is never modified.) -/
theorem rtp_header_copied
    (sb : List Nat → List Nat → List Nat → List Nat)
    (f : GstDiscordcrypto) (inmap randomBytes out : List Nat)
    (hsb : ∀ k nn pt, (sb k nn pt).length = pt.length + 16)
    (h12 : 12 ≤ inmap.length)
    (hrand : randomBytes.length = 24)
    (hout : (encrypt_packet sb f inmap randomBytes true).1 = some out) :
    out.take 12 = inmap.take 12 := by
  have hhdr := take_header inmap h12
  cases hmode : f.encryption
  case xsalsa20_poly1305 =>
    rw [encrypt_packet_standard_eq sb f inmap randomBytes hmode hsb h12]
      at hout
    simp only [Option.some.injEq] at hout
    rw [← hout, List.take_left' hhdr]
  case xsalsa20_poly1305_suffix =>
    rw [encrypt_packet_suffix_eq sb f inmap randomBytes hmode hsb h12 hrand]
      at hout
    simp only [Option.some.injEq] at hout
    rw [← hout, List.append_assoc, List.take_left' hhdr]
  case xsalsa20_poly1305_lite =>
    rw [encrypt_packet_lite_eq sb f inmap randomBytes hmode hsb h12] at hout
    simp only [Option.some.injEq] at hout
    rw [← hout, List.append_assoc, List.take_left' hhdr]

/-- Witness for C6 on the concrete LITE-mode packet. -/
theorem rtp_header_copied_witness :
    (12 : Nat) ≤ wIn.length ∧
    (encrypt_packet sbTest
        { encryption := .xsalsa20_poly1305_lite, key := wKey,
          lite_nonce := 0, outsize := 0 } wIn (List.replicate 24 0)
        true).1 =
      some (wHeader ++ List.replicate 16 1 ++ wPayload ++ [0, 0, 0, 0]) ∧
    (wHeader ++ List.replicate 16 1 ++ wPayload ++
      [0, 0, 0, 0] : List Nat).take 12 = wIn.take 12 :=
  ⟨by decide, by decide,
   rtp_header_copied sbTest
     { encryption := .xsalsa20_poly1305_lite, key := wKey,
       lite_nonce := 0, outsize := 0 } wIn (List.replicate 24 0)
     (wHeader ++ List.replicate 16 1 ++ wPayload ++ [0, 0, 0, 0])
     sbTest_length (by decide) (by decide) (by decide)⟩

/-- Claim C7: STANDARD mode uses nonce = the 12 RTP header bytes followed
by 12 zero bytes; the output is the header followed immediately by the
secretbox of the payload under that nonce and the stored key — of length
payload length + 16 — with no trailer after it (output length is exactly
input length + 16). -/
theorem standard_mode_layout
    (sb : List Nat → List Nat → List Nat → List Nat)
    (f : GstDiscordcrypto) (inmap randomBytes : List Nat)
    (hsb : ∀ k nn pt, (sb k nn pt).length = pt.length + 16)
    (hmode : f.encryption = .xsalsa20_poly1305)
    (h12 : 12 ≤ inmap.length) :
    (encrypt_packet sb f inmap randomBytes true).1 =
      some (inmap.take 12 ++
        sb f.key (inmap.take 12 ++ List.replicate 12 0) (inmap.drop 12)) ∧
    (sb f.key (inmap.take 12 ++ List.replicate 12 0)
      (inmap.drop 12)).length = (inmap.drop 12).length + 16 ∧
    (inmap.take 12 ++
      sb f.key (inmap.take 12 ++ List.replicate 12 0)
        (inmap.drop 12)).length = inmap.length + 16 := by
  refine ⟨?_, hsb _ _ _, ?_⟩
  · rw [encrypt_packet_standard_eq sb f inmap randomBytes hmode hsb h12]
  · simp only [List.length_append, List.length_drop, take_header inmap h12,
      hsb]
    omega

/-- Witness for C7 on the concrete STANDARD-mode packet. -/
theorem standard_mode_layout_witness :
    (12 : Nat) ≤ wIn.length ∧
    (encrypt_packet sbTest
        { encryption := .xsalsa20_poly1305, key := wKey,
          lite_nonce := 0, outsize := 0 } wIn [] true).1 =
      some (wIn.take 12 ++
        sbTest wKey (wIn.take 12 ++ List.replicate 12 0) (wIn.drop 12)) ∧
    (wIn.take 12 ++
      sbTest wKey (wIn.take 12 ++ List.replicate 12 0)
        (wIn.drop 12)).length = wIn.length + 16 :=
  ⟨by decide,
   (standard_mode_layout sbTest
     { encryption := .xsalsa20_poly1305, key := wKey,
       lite_nonce := 0, outsize := 0 } wIn [] sbTest_length rfl
     (by decide)).1,
   (standard_mode_layout sbTest
     { encryption := .xsalsa20_poly1305, key := wKey,
       lite_nonce := 0, outsize := 0 } wIn [] sbTest_length rfl
     (by decide)).2.2⟩

/-- Claim C8: the trailer written is exactly the nonce bytes used for the
secretbox call of the packet — in SUFFIX mode the last 24 output bytes are the
24 random nonce bytes, and in LITE mode the last 4 output bytes are
`htonlBytes lite_nonce`, the big-endian counter placed at `nonce[0..4]`. -/
theorem trailer_is_nonce
    (sb : List Nat → List Nat → List Nat → List Nat)
    (f : GstDiscordcrypto) (inmap randomBytes out : List Nat)
    (hsb : ∀ k nn pt, (sb k nn pt).length = pt.length + 16)
    (h12 : 12 ≤ inmap.length)
    (hout : (encrypt_packet sb f inmap randomBytes true).1 = some out) :
    (f.encryption = .xsalsa20_poly1305_suffix → randomBytes.length = 24 →
      out.drop (out.length - 24) = randomBytes) ∧
    (f.encryption = .xsalsa20_poly1305_lite →
      out.drop (out.length - 4) = htonlBytes f.lite_nonce) := by
  constructor
  · intro hmode hrand
    rw [encrypt_packet_suffix_eq sb f inmap randomBytes hmode hsb h12 hrand]
      at hout
    simp only [Option.some.injEq] at hout
    rw [← hout]
    exact drop_tail _ _ 24 hrand
  · intro hmode
    rw [encrypt_packet_lite_eq sb f inmap randomBytes hmode hsb h12] at hout
    simp only [Option.some.injEq] at hout
    rw [← hout]
    exact drop_tail _ _ 4 (htonlBytes_length f.lite_nonce)

/-- Witness for C8 on a concrete SUFFIX-mode packet with a concrete
24-byte nonce. -/
theorem trailer_is_nonce_witness :
    (List.replicate 24 9 : List Nat).length = 24 ∧
    (encrypt_packet sbTest
        { encryption := .xsalsa20_poly1305_suffix, key := wKey,
          lite_nonce := 0, outsize := 0 } wIn (List.replicate 24 9)
        true).1 =
      some (wHeader ++ List.replicate 16 1 ++ wPayload ++
        List.replicate 24 9) ∧
    (wHeader ++ List.replicate 16 1 ++ wPayload ++
      List.replicate 24 9 : List Nat).drop
      ((wHeader ++ List.replicate 16 1 ++ wPayload ++
        List.replicate 24 9 : List Nat).length - 24) =
      List.replicate 24 9 :=
  ⟨by decide, by decide,
   (trailer_is_nonce sbTest
     { encryption := .xsalsa20_poly1305_suffix, key := wKey,
       lite_nonce := 0, outsize := 0 } wIn (List.replicate 24 9)
     (wHeader ++ List.replicate 16 1 ++ wPayload ++ List.replicate 24 9)
     sbTest_length (by decide) (by decide)).1 rfl (by decide)⟩

/-- Claim C4: in LITE mode under a fixed key, for two consecutive
successful encryptions the big-endian value of the 4-byte trailer of the
second packet is the trailer value of the first plus one modulo 2^32; the
counter increments by 1 per packet and wraps from 2^32 − 1 to 0. -/
theorem lite_consecutive_trailers
    (sb : List Nat → List Nat → List Nat → List Nat)
    (f f1 : GstDiscordcrypto) (in1 in2 r1 r2 out1 out2 : List Nat)
    (hsb : ∀ k nn pt, (sb k nn pt).length = pt.length + 16)
    (hmode : f.encryption = .xsalsa20_poly1305_lite)
    (hctr : f.lite_nonce < 4294967296)
    (h12a : 12 ≤ in1.length) (h12b : 12 ≤ in2.length)
    (h1 : encrypt_packet sb f in1 r1 true = (some out1, f1))
    (h2 : (encrypt_packet sb f1 in2 r2 true).1 = some out2) :
    beVal (out2.drop (out2.length - 4)) =
      (beVal (out1.drop (out1.length - 4)) + 1) % 4294967296 := by
  rw [encrypt_packet_lite_eq sb f in1 r1 hmode hsb h12a, Prod.mk.injEq]
    at h1
  obtain ⟨h1a, h1b⟩ := h1
  simp only [Option.some.injEq] at h1a
  have hmode1 : f1.encryption = .xsalsa20_poly1305_lite := by
    rw [← h1b]
    simp [prepare_encryption, hmode]
  rw [encrypt_packet_lite_eq sb f1 in2 r2 hmode1 hsb h12b] at h2
  simp only [Option.some.injEq] at h2
  have hlite1 : f1.lite_nonce =
      if f.lite_nonce < 4294967295 then f.lite_nonce + 1 else 0 := by
    rw [← h1b]
  have hnext : (if f.lite_nonce < 4294967295 then f.lite_nonce + 1
      else 0) < 4294967296 := by
    split <;> omega
  rw [← h1a, ← h2]
  rw [drop_tail _ _ 4 (htonlBytes_length _)]
  rw [drop_tail _ _ 4 (htonlBytes_length _)]
  rw [hlite1, beVal_htonlBytes _ hnext, beVal_htonlBytes _ hctr,
    lite_step _ hctr]

/-- Witness for C4: the spec scenario packet encrypted twice from counter
0 yields trailers `00 00 00 00` then `00 00 00 01`. -/
theorem lite_consecutive_trailers_witness :
    encrypt_packet sbTest
        { encryption := .xsalsa20_poly1305_lite, key := wKey,
          lite_nonce := 0, outsize := 0 } wIn [] true =
      (some (wHeader ++ List.replicate 16 1 ++ wPayload ++ [0, 0, 0, 0]),
       { encryption := .xsalsa20_poly1305_lite, key := wKey,
         lite_nonce := 1, outsize := 36 }) ∧
    (encrypt_packet sbTest
        { encryption := .xsalsa20_poly1305_lite, key := wKey,
          lite_nonce := 1, outsize := 36 } wIn [] true).1 =
      some (wHeader ++ List.replicate 16 1 ++ wPayload ++ [0, 0, 0, 1]) ∧
    beVal ((wHeader ++ List.replicate 16 1 ++ wPayload ++
        [0, 0, 0, 1] : List Nat).drop
      ((wHeader ++ List.replicate 16 1 ++ wPayload ++
        [0, 0, 0, 1] : List Nat).length - 4)) =
      (beVal ((wHeader ++ List.replicate 16 1 ++ wPayload ++
          [0, 0, 0, 0] : List Nat).drop
        ((wHeader ++ List.replicate 16 1 ++ wPayload ++
          [0, 0, 0, 0] : List Nat).length - 4)) + 1) % 4294967296 :=
  ⟨by decide, by decide,
   lite_consecutive_trailers sbTest
     { encryption := .xsalsa20_poly1305_lite, key := wKey,
       lite_nonce := 0, outsize := 0 }
     { encryption := .xsalsa20_poly1305_lite, key := wKey,
       lite_nonce := 1, outsize := 36 }
     wIn wIn [] []
     (wHeader ++ List.replicate 16 1 ++ wPayload ++ [0, 0, 0, 0])
     (wHeader ++ List.replicate 16 1 ++ wPayload ++ [0, 0, 0, 1])
     sbTest_length rfl (by decide) (by decide) (by decide) (by decide)
     (by decide)⟩

/-- Counterexample to claim C1: on a session whose LITE counter is 5, a
successful key assignment leaves the counter at 5, and the next LITE
packet carries trailer `00 00 00 05`, not `00 00 00 00`. -/
theorem key_assignment_resets_counter_cex :
    gst_discord_crypto_set_property_key
        { encryption := .xsalsa20_poly1305_lite,
          key := List.replicate 32 0, lite_nonce := 5, outsize := 0 }
        wKey =
      some { encryption := .xsalsa20_poly1305_lite, key := wKey,
             lite_nonce := 5, outsize := 0 } ∧
    (5 : Nat) ≠ 0 ∧
    (encrypt_packet sbTest
        { encryption := .xsalsa20_poly1305_lite, key := wKey,
          lite_nonce := 5, outsize := 0 } wIn [] true).1 =
      some (wHeader ++ List.replicate 16 1 ++ wPayload ++ [0, 0, 0, 5]) ∧
    (wHeader ++ List.replicate 16 1 ++ wPayload ++
      [0, 0, 0, 5] : List Nat).drop
      ((wHeader ++ List.replicate 16 1 ++ wPayload ++
        [0, 0, 0, 5] : List Nat).length - 4) ≠ [0, 0, 0, 0] := by
  refine ⟨by decide, by decide, by decide, by decide⟩

/-- Amended C1: assigning the key does NOT touch the LITE counter (only
`gst_discord_crypto_init` zeroes it); the first LITE packet carries
trailer `00 00 00 00` exactly when the counter is still 0 when it is
encrypted. -/
theorem set_key_preserves_lite_counter :
    (∀ f value f', gst_discord_crypto_set_property_key f value = some f' →
      f'.lite_nonce = f.lite_nonce) ∧
    (∀ sb f inmap randomBytes out,
      (∀ k nn pt, (sb k nn pt : List Nat).length = pt.length + 16) →
      12 ≤ (inmap : List Nat).length →
      (f : GstDiscordcrypto).encryption = .xsalsa20_poly1305_lite →
      f.lite_nonce = 0 →
      (encrypt_packet sb f inmap randomBytes true).1 = some out →
      out.drop (out.length - 4) = [0, 0, 0, 0]) := by
  constructor
  · intro f value f' h
    unfold gst_discord_crypto_set_property_key at h
    split at h
    · exact Option.noConfusion h
    · simp only [Option.some.injEq] at h
      rw [← h]
  · intro sb f inmap randomBytes out hsb h12 hmode h0 hout
    rw [encrypt_packet_lite_eq sb f inmap randomBytes hmode hsb h12]
      at hout
    simp only [Option.some.injEq] at hout
    rw [← hout, drop_tail _ _ 4 (htonlBytes_length _), h0]
    decide

/-- Witness for the amended C1: assigning a key on a counter-9 session
keeps the counter at 9, and a packet from a counter-0 session carries the zero
trailer. -/
theorem set_key_preserves_lite_counter_witness :
    gst_discord_crypto_set_property_key
        { encryption := .xsalsa20_poly1305_lite,
          key := List.replicate 32 0, lite_nonce := 9, outsize := 0 }
        wKey =
      some { encryption := .xsalsa20_poly1305_lite, key := wKey,
             lite_nonce := 9, outsize := 0 } ∧
    ({ encryption := .xsalsa20_poly1305_lite, key := wKey,
       lite_nonce := 9, outsize := 0 } : GstDiscordcrypto).lite_nonce =
      ({ encryption := .xsalsa20_poly1305_lite,
         key := List.replicate 32 0, lite_nonce := 9,
         outsize := 0 } : GstDiscordcrypto).lite_nonce ∧
    (encrypt_packet sbTest
        { encryption := .xsalsa20_poly1305_lite, key := wKey,
          lite_nonce := 0, outsize := 0 } wIn [] true).1 =
      some (wHeader ++ List.replicate 16 1 ++ wPayload ++ [0, 0, 0, 0]) ∧
    (wHeader ++ List.replicate 16 1 ++ wPayload ++
      [0, 0, 0, 0] : List Nat).drop
      ((wHeader ++ List.replicate 16 1 ++ wPayload ++
        [0, 0, 0, 0] : List Nat).length - 4) = [0, 0, 0, 0] :=
  ⟨by decide,
   set_key_preserves_lite_counter.1
     { encryption := .xsalsa20_poly1305_lite,
       key := List.replicate 32 0, lite_nonce := 9, outsize := 0 }
     wKey
     { encryption := .xsalsa20_poly1305_lite, key := wKey,
       lite_nonce := 9, outsize := 0 } (by decide),
   by decide,
   set_key_preserves_lite_counter.2 sbTest
     { encryption := .xsalsa20_poly1305_lite, key := wKey,
       lite_nonce := 0, outsize := 0 } wIn []
     (wHeader ++ List.replicate 16 1 ++ wPayload ++ [0, 0, 0, 0])
     sbTest_length (by decide) rfl rfl (by decide)⟩

/-- Counterexample to claim C2: an array of 33 values (length ≠ 32) is
NOT rejected — the property setter succeeds and silently stores the first
32 values. -/
theorem key_length_not_32_accepted_cex :
    (List.replicate 33 7 : List Nat).length ≠ 32 ∧
    gst_discord_crypto_set_property_key
        { encryption := .xsalsa20_poly1305_lite,
          key := List.replicate 32 0, lite_nonce := 0, outsize := 0 }
        (List.replicate 33 7) =
      some { encryption := .xsalsa20_poly1305_lite,
             key := List.replicate 32 7, lite_nonce := 0, outsize := 0 } :=
  ⟨by decide, by decide⟩

/-- Amended C2: setting the key fails (with the "Specifed key too short"
element error, state unchanged) exactly when the supplied array has FEWER
than 32 values; any array of 32 or more values is accepted, its first 32
values are stored and longer arrays are silently truncated. -/
theorem key_rejects_only_short (f : GstDiscordcrypto) (value : List Nat) :
    (gst_discord_crypto_set_property_key f value = none ↔
      value.length < 32) ∧
    (∀ f', gst_discord_crypto_set_property_key f value = some f' →
      f' = { f with key := value.take 32 }) := by
  unfold gst_discord_crypto_set_property_key
  refine ⟨?_, ?_⟩
  · split
    · simp [*]
    · simp [*]
  · intro f' h
    split at h
    · exact Option.noConfusion h
    · simp only [Option.some.injEq] at h
      exact h.symm

/-- Witness for the amended C2: a 31-value array is rejected; a 33-value
array is stored as its first 32 values. -/
theorem key_rejects_only_short_witness :
    gst_discord_crypto_set_property_key
        { encryption := .xsalsa20_poly1305_lite,
          key := List.replicate 32 0, lite_nonce := 0, outsize := 0 }
        (List.replicate 31 7) = none ∧
    ({ encryption := .xsalsa20_poly1305_lite, key := List.replicate 32 7,
       lite_nonce := 0, outsize := 0 } : GstDiscordcrypto) =
      { ({ encryption := .xsalsa20_poly1305_lite,
           key := List.replicate 32 0, lite_nonce := 0,
           outsize := 0 } : GstDiscordcrypto) with
          key := (List.replicate 33 7 : List Nat).take 32 } :=
  ⟨(key_rejects_only_short
      { encryption := .xsalsa20_poly1305_lite,
        key := List.replicate 32 0, lite_nonce := 0, outsize := 0 }
      (List.replicate 31 7)).1.mpr (by decide),
   (key_rejects_only_short
      { encryption := .xsalsa20_poly1305_lite,
        key := List.replicate 32 0, lite_nonce := 0, outsize := 0 }
      (List.replicate 33 7)).2
     { encryption := .xsalsa20_poly1305_lite, key := List.replicate 32 7,
       lite_nonce := 0, outsize := 0 } (by decide)⟩

/-- Counterexample to claim C3: on a session whose key was never set (the
`gst_discord_crypto_init` state, mode selected via the property), the
transform still produces an output packet — there is no `NotConfigured`
error path. -/
theorem not_configured_cex :
    ((encrypt_packet sbTest
        (gst_discord_crypto_set_property_encryption gst_discord_crypto_init
          .xsalsa20_poly1305_lite) wIn [] true).1).isSome = true := by
  decide

/-- Amended C3: `gst_discord_crypto_transform` performs no
configured-key check at all: whenever the buffer maps succeed it returns
an output packet, for every session state — including one whose key was
never set, which still holds the zero-initialized 32-byte key and gets
encrypted with it.  The only failure path in the transform is the
buffer-map check. -/
theorem transform_has_no_key_check
    (sb : List Nat → List Nat → List Nat → List Nat)
    (f : GstDiscordcrypto) (inmap randomBytes : List Nat) :
    ((encrypt_packet sb f inmap randomBytes true).1).isSome = true ∧
    gst_discord_crypto_init.key = List.replicate 32 0 := by
  refine ⟨?_, rfl⟩
  unfold encrypt_packet gst_discord_crypto_transform
  cases h : (gst_discord_crypto_prepare_output_buffer f
      inmap.length).encryption <;> simp [h]
